import Mathlib

/-!
Verification of the sales-revenue-prediction service against its
natural-language specification.  Python integers are embedded as `ℤ`,
Python floats (used only for revenue and metric values, where the code
performs exact comparisons against literals) as `ℚ`, fallible
constructors and operations as `Except String`.
-/

namespace SalesRevenue

/-- Embeds the frozen dataclass `SalesPrediction`
(src/api/domain/sales_prediction.py): the four attributes of a revenue
prediction entity. -/
structure SalesPrediction where
  experience_months : ℤ
  number_of_sales : ℤ
  seasonal_factor : ℤ
  predicted_revenue : ℚ
deriving Repr, DecidableEq

/-- Whether an `Except` value is a success. -/
def exOk {ε α : Type} : Except ε α → Bool
  | .ok _ => true
  | .error _ => false

/-- Embeds construction of `SalesPrediction`: `__post_init__`
(src/api/domain/sales_prediction.py, lines 26-43) validates the four
attributes in source order, raising `ValueError` with the first failing
check and its message; a raised exception means no entity reaches the
caller, embedded as `Except.error`. -/
def mkSalesPrediction (experience_months number_of_sales seasonal_factor : ℤ)
    (predicted_revenue : ℚ) : Except String SalesPrediction :=
  if experience_months < 0 then .error "Experience months cannot be negative"
  else if number_of_sales < 0 then .error "Number of sales cannot be negative"
  else if ¬ (1 ≤ seasonal_factor ∧ seasonal_factor ≤ 10) then
    .error "Seasonal factor must be between 1 and 10"
  else if predicted_revenue < 0 then .error "Predicted revenue cannot be negative"
  else .ok ⟨experience_months, number_of_sales, seasonal_factor, predicted_revenue⟩

/-- Models `itertools.combinations_with_replacement` over a list of
indices, in the lexicographic order Python produces: the multisets of
size `k` drawn from `l` with repetition.  Used by the scikit-learn
`PolynomialFeatures` to enumerate monomial index tuples. -/
def cwrStep {α : Type} (f : List α → List (List α)) : List α → List (List α)
  | [] => []
  | a :: as => ((f (a :: as)).map (a :: ·)) ++ cwrStep f as

/-- Combinations with replacement of size `k` from `l`, lexicographic. -/
def cwr {α : Type} : Nat → List α → List (List α)
  | 0, _ => [[]]
  | k + 1, l => cwrStep (cwr k) l

/-- Models the monomial enumeration of
`PolynomialFeatures(degree, include_bias=False)` on `nIn` input
features: for each total degree `k = 1, …, degree` (no constant term),
the index combinations with replacement in canonical order. -/
def polyCombos (nIn degree : Nat) : List (List Nat) :=
  (List.range degree).flatMap (fun k => cwr (k + 1) (List.range nIn))

/-- Models the fitted state of a scikit-learn `PolynomialFeatures`
transformer: the polynomial degree and the number of input features
recorded at `fit` time (`n_features_in_`). -/
structure PolyFeatures where
  degree : Nat
  nIn : Nat
deriving Repr, DecidableEq

/-- One row of the polynomial expansion: the value of each enumerated
monomial at the row. -/
def PolyFeatures.transformRow (t : PolyFeatures) (row : List ℚ) : List ℚ :=
  (polyCombos t.nIn t.degree).map (fun c => (c.map (fun i => row.getD i 0)).prod)

/-- Models `PolynomialFeatures.transform`: validates that the input has
as many feature columns as seen at `fit` time, then expands every row. -/
def PolyFeatures.transform (t : PolyFeatures) (X : List (List ℚ)) :
    Except String (List (List ℚ)) :=
  if X.all (fun row => row.length == t.nIn) then .ok (X.map t.transformRow)
  else .error "X has a different number of features than during fitting"

/-- The fixed feature-name list `DataPreprocessor.EXPECTED_FEATURES`
(src/core/preprocessing.py, line 22). -/
def EXPECTED_FEATURES : List String :=
  ["years_of_experience", "number_of_sales", "seasonal_factor"]

/-- Embeds the state of `DataPreprocessor`
(src/core/preprocessing.py): polynomial degree, the optional fitted
transformer (`None` until `fit`), and the feature names. -/
structure DataPreprocessor where
  degree : Nat
  transformer : Option PolyFeatures
  feature_names : List String
deriving Repr, DecidableEq

/-- Embeds `DataPreprocessor.__init__`: no transformer is fitted yet. -/
def mkDataPreprocessor (degree : Nat) : DataPreprocessor :=
  ⟨degree, none, EXPECTED_FEATURES⟩

/-- Embeds `DataPreprocessor.fit` (src/core/preprocessing.py, lines
35-47): creates a `PolynomialFeatures(degree, include_bias=False)` and
fits it on `X`, recording the number of columns of `X`. -/
def DataPreprocessor.fit (p : DataPreprocessor) (X : List (List ℚ)) :
    DataPreprocessor :=
  ⟨p.degree, some ⟨p.degree, (X.headD []).length⟩, p.feature_names⟩

/-- Embeds `DataPreprocessor.transform` (src/core/preprocessing.py,
lines 49-65): raises `ValueError` when the transformer has not been
fitted, otherwise delegates to the fitted transformer. -/
def DataPreprocessor.transform (p : DataPreprocessor) (X : List (List ℚ)) :
    Except String (List (List ℚ)) :=
  match p.transformer with
  | none => .error "Transformer not fitted. Call fit() first."
  | some t => t.transform X

/-- Embeds `DataPreprocessor.fit_transform` (src/core/preprocessing.py,
lines 67-77): `fit` then `transform` on the same data. -/
def DataPreprocessor.fitTransform (p : DataPreprocessor) (X : List (List ℚ)) :
    Except String (List (List ℚ)) :=
  (p.fit X).transform X

/-- Embeds `ModelEvaluator.interpret_r2` (src/core/evaluation.py, lines
78-98): maps an R² value to a human-readable quality band through a
chain of threshold comparisons. -/
def interpret_r2 (r2 : ℚ) : String :=
  if r2 < 0 then "Very poor - model is worse than predicting the mean"
  else if r2 < 0.3 then "Poor - model has weak predictive power"
  else if r2 < 0.7 then "Moderate - model captures some patterns"
  else if r2 < 0.9 then "Good - model captures most patterns"
  else "Excellent - model has strong predictive power"

/-- The expected feature keys absent from an input dictionary
(Python: `set(EXPECTED_FEATURES) - set(data.keys())`), in the fixed
order of `EXPECTED_FEATURES`; the embedding keeps a deterministic
order where the Python `set` leaves it unspecified. -/
def missingFeatures (data : List (String × ℚ)) : List String :=
  EXPECTED_FEATURES.filter (fun k => (data.lookup k).isNone)

/-- Embeds `DataPreprocessor.validate_input` (src/core/preprocessing.py,
lines 94-115): raises `ValueError` naming the missing expected keys,
otherwise returns a single-row array with the three expected values in
fixed order, ignoring any other keys.  A Python dict is embedded as a
lookup list. -/
def validate_input (data : List (String × ℚ)) : Except String (List (List ℚ)) :=
  if missingFeatures data ≠ [] then
    .error ("Missing required features: " ++
      String.intercalate ", " (missingFeatures data))
  else
    .ok [[(data.lookup "years_of_experience").getD 0,
          (data.lookup "number_of_sales").getD 0,
          (data.lookup "seasonal_factor").getD 0]]

/-- Embeds Python `str.endswith` through the character-list suffix
relation. -/
def strEndsWith (s suffix : String) : Bool := decide (suffix.data <:+ s.data)

/-- The file-name normalization both `save_model` and `load_model`
apply (src/core/persistence.py): append `.joblib` unless the name
already ends with it. -/
def normalizeName (filename : String) : String :=
  if strEndsWith filename ".joblib" then filename else filename ++ ".joblib"

/-- Embeds `ModelLoader.save_model` (src/core/persistence.py, lines
58-77): normalize the file name, dump the artifact at that name, and
return the path.  The contents of the store directory are embedded as a
list mapping file names to artifacts of an abstract artifact type `α`
(joblib round-trips stored values exactly); the returned path is the
name within the store directory. -/
def save_model {α : Type} (store : List (String × α)) (model : α)
    (filename : String) : List (String × α) × String :=
  ((normalizeName filename, model) :: store, normalizeName filename)

/-- Embeds `ModelLoader.load_model` (src/core/persistence.py, lines
79-100): normalize the file name; raise `FileNotFoundError` when no
file of that name exists, otherwise return the stored artifact. -/
def load_model {α : Type} (store : List (String × α)) (filename : String) :
    Except String α :=
  match store.lookup (normalizeName filename) with
  | some m => .ok m
  | none => .error ("Model not found: " ++ normalizeName filename)

/-- Embeds `ModelLoader.load_all` (src/core/persistence.py, lines
129-136) together with `load_transformer`, `load_predictor` and
`load_metadata`: load the three conventionally named artifacts in
source order; the first failing load raises. -/
def load_all {α : Type} (store : List (String × α)) :
    Except String (α × α × α) := do
  let transformer ← load_model store "polynomial_transformer"
  let predictor ← load_model store "revenue_model"
  let metadata ← load_model store "model_metadata"
  return (transformer, predictor, metadata)

/-- The candidate locations `ModelLoader._find_models_dir` probes, in
source order (src/core/persistence.py, lines 42-47): the relative
`saved_models` under the current working directory, the absolute
Docker deployment path, and `fileRel`, the directory resolved relative
to the location of the module itself (`Path(__file__).parent.parent`
joined with saved_models). -/
def modelsSearchPaths (fileRel : String) : List String :=
  ["saved_models", "/app/saved_models", fileRel]

/-- Embeds `ModelLoader._find_models_dir` (src/core/persistence.py,
lines 33-56): probe the candidates in order against the filesystem
existence test `ex`; the first existing path wins, and when none
exists, default to the relative `saved_models`. -/
def find_models_dir (ex : String → Bool) (fileRel : String) : String :=
  ((modelsSearchPaths fileRel).find? ex).getD "saved_models"

/-- Embeds `ModelLoader.__init__` (src/core/persistence.py, lines
21-31): `if models_dir:` tests Python truthiness, so the explicit
argument is used only when it is truthy; `none` embeds `None` and
`some ""` the empty string, both falsy. -/
def resolveModelsDir (arg : Option String) (ex : String → Bool)
    (fileRel : String) : String :=
  match arg with
  | some d => if d ≠ "" then d else find_models_dir ex fileRel
  | none => find_models_dir ex fileRel

/-- Embeds the validated DTO `PredictionInput`
(src/api/application/dtos.py, lines 9-25): three integer fields. -/
structure PredictionInput where
  experience_months : ℤ
  number_of_sales : ℤ
  seasonal_factor : ℤ
deriving Repr, DecidableEq

/-- Embeds the DTO `PredictionOutput` (src/api/application/dtos.py,
lines 28-49): the predicted revenue, the three echoed input fields, and
the model-info string with its declared default. -/
structure PredictionOutput where
  predicted_revenue : ℚ
  experience_months : ℤ
  number_of_sales : ℤ
  seasonal_factor : ℤ
  model_info : String
deriving Repr, DecidableEq

/-- Embeds the pydantic validation of `PredictionInput`
(src/api/application/dtos.py): `experience_months ≥ 0`,
`number_of_sales ≥ 0`, `1 ≤ seasonal_factor ≤ 10`.  Pydantic collects
the violating fields and raises a single validation error naming them;
a rejected request never produces a DTO. -/
def mkPredictionInput (e s f : ℤ) : Except String PredictionInput :=
  let errs := (if e < 0 then ["experience_months"] else [])
    ++ (if s < 0 then ["number_of_sales"] else [])
    ++ (if ¬ (1 ≤ f ∧ f ≤ 10) then ["seasonal_factor"] else [])
  if errs = [] then .ok ⟨e, s, f⟩
  else .error ("validation error: " ++ String.intercalate ", " errs)

/-- Embeds `ModelRepository.predict`
(src/api/infrastructure/ml/model_repository.py, lines 45-66): assemble
the ordered single-row feature array, transform it with the loaded
fitted transformer, call the regressor on the transformed batch, take
element `[0]`, and coerce to float (the identity here).  `g` models
`self.model.predict` applied to one row of the batch. -/
def repoPredict (t : PolyFeatures) (g : List ℚ → ℚ) (e s f : ℤ) :
    Except String ℚ :=
  (t.transform [[(e : ℚ), (s : ℚ), (f : ℚ)]]).map
    (fun rows => (rows.map g).headD 0)

/-- Embeds `PredictRevenueUseCase.execute`
(src/api/application/use_cases.py, lines 28-56): get the prediction
from the repository, construct the `SalesPrediction` domain entity
(which re-validates the business rules), and build the output DTO from
the fields of the entity; `model_info` keeps its declared default. -/
def execute (t : PolyFeatures) (g : List ℚ → ℚ) (input : PredictionInput) :
    Except String PredictionOutput :=
  match repoPredict t g
      input.experience_months input.number_of_sales input.seasonal_factor with
  | .error msg => .error msg
  | .ok predicted_revenue =>
    match mkSalesPrediction
        input.experience_months input.number_of_sales input.seasonal_factor
        predicted_revenue with
    | .error msg => .error msg
    | .ok prediction =>
      .ok ⟨prediction.predicted_revenue, prediction.experience_months,
        prediction.number_of_sales, prediction.seasonal_factor,
        "Polynomial Regression (degree=2)"⟩

/-- The external interface: pydantic validates the raw fields into a
`PredictionInput` DTO, then the use case runs (src/api/infrastructure/
api/routes.py delegates to `PredictRevenueUseCase.execute`). -/
def pipeline (t : PolyFeatures) (g : List ℚ → ℚ) (e s f : ℤ) :
    Except String PredictionOutput :=
  match mkPredictionInput e s f with
  | .error msg => .error msg
  | .ok input => execute t g input

theorem cwr_length {α : Type} :
    ∀ (k : Nat) (l : List α), (cwr k l).length = Nat.choose (l.length + k - 1) k := by
  intro k
  induction k with
  | zero => intro l; simp [cwr]
  | succ k ih =>
    intro l
    induction l with
    | nil => simp [cwr, cwrStep, Nat.choose_eq_zero_of_lt]
    | cons a as ihl =>
      have h1 : as.length + 1 + k - 1 = as.length + k := by omega
      have h2 : as.length + (k + 1) - 1 = as.length + k := by omega
      have h3 : (a :: as).length + (k + 1) - 1 = as.length + k + 1 := by
        simp only [List.length_cons]
        omega
      calc (cwr (k + 1) (a :: as)).length
          = (cwr k (a :: as)).length + (cwr (k + 1) as).length := by
            simp [cwr, cwrStep]
        _ = Nat.choose (as.length + k) k + Nat.choose (as.length + k) (k + 1) := by
            rw [ih, ihl, List.length_cons, h1, h2]
        _ = Nat.choose (as.length + k + 1) (k + 1) := (Nat.choose_succ_succ _ _).symm
        _ = Nat.choose ((a :: as).length + (k + 1) - 1) (k + 1) := by rw [h3]

theorem polyCombos_length (n : Nat) :
    ∀ d, (polyCombos n d).length = Nat.choose (n + d) d - 1 := by
  intro d
  induction d with
  | zero => simp [polyCombos]
  | succ d ih =>
    have hpos : 0 < Nat.choose (n + d) d := Nat.choose_pos (by omega)
    have hstep : Nat.choose (n + (d + 1)) (d + 1)
        = Nat.choose (n + d) d + Nat.choose (n + d) (d + 1) := by
      have : n + (d + 1) = (n + d) + 1 := by omega
      rw [this, Nat.choose_succ_succ]
    have hlen : (cwr (d + 1) (List.range n)).length = Nat.choose (n + d) (d + 1) := by
      have harg : n + (d + 1) - 1 = n + d := by omega
      rw [cwr_length, List.length_range, harg]
    calc (polyCombos n (d + 1)).length
        = (polyCombos n d).length + (cwr (d + 1) (List.range n)).length := by
          simp [polyCombos, List.range_succ]
      _ = (Nat.choose (n + d) d - 1) + Nat.choose (n + d) (d + 1) := by
          rw [ih, hlen]
      _ = Nat.choose (n + (d + 1)) (d + 1) - 1 := by omega

theorem polyCombos_three_two :
    polyCombos 3 2 = [[0], [1], [2], [0, 0], [0, 1], [0, 2], [1, 1], [1, 2], [2, 2]] := by
  rfl

theorem transformRow_deg2 (row : List ℚ) :
    PolyFeatures.transformRow ⟨2, 3⟩ row =
      [row.getD 0 0, row.getD 1 0, row.getD 2 0,
       row.getD 0 0 * row.getD 0 0, row.getD 0 0 * row.getD 1 0,
       row.getD 0 0 * row.getD 2 0, row.getD 1 0 * row.getD 1 0,
       row.getD 1 0 * row.getD 2 0, row.getD 2 0 * row.getD 2 0] := by
  simp [PolyFeatures.transformRow, polyCombos_three_two, mul_one]

theorem strEndsWith_append (s t : String) : strEndsWith (s ++ t) t = true := by
  simp [strEndsWith, String.data_append]

theorem normalizeName_idem (n : String) :
    normalizeName (normalizeName n) = normalizeName n := by
  unfold normalizeName
  cases h : strEndsWith n ".joblib" with
  | true => simp [h]
  | false => simp [h, strEndsWith_append]

theorem mkSalesPrediction_ok (e s f : ℤ) (r : ℚ) (he : 0 ≤ e) (hs : 0 ≤ s)
    (hf1 : 1 ≤ f) (hf2 : f ≤ 10) (hr : 0 ≤ r) :
    mkSalesPrediction e s f r = .ok ⟨e, s, f, r⟩ := by
  unfold mkSalesPrediction
  split_ifs with h1 h2 h3 h4 <;> first | rfl | omega | linarith

/-- C1: constructing a `SalesPrediction` succeeds iff
`experience_months ≥ 0`, `number_of_sales ≥ 0`,
`1 ≤ seasonal_factor ≤ 10` and `predicted_revenue ≥ 0`; the checks run
in exactly that order, the first violated invariant determines the
error message (later checks short-circuited), and a failed construction
produces no entity (the `Except.error` branch carries only a message). -/
theorem mkSalesPrediction_spec (e s f : ℤ) (r : ℚ) :
    (exOk (mkSalesPrediction e s f r) = true ↔
      0 ≤ e ∧ 0 ≤ s ∧ 1 ≤ f ∧ f ≤ 10 ∧ 0 ≤ r)
    ∧ (e < 0 → mkSalesPrediction e s f r =
        .error "Experience months cannot be negative")
    ∧ (0 ≤ e → s < 0 → mkSalesPrediction e s f r =
        .error "Number of sales cannot be negative")
    ∧ (0 ≤ e → 0 ≤ s → ¬ (1 ≤ f ∧ f ≤ 10) → mkSalesPrediction e s f r =
        .error "Seasonal factor must be between 1 and 10")
    ∧ (0 ≤ e → 0 ≤ s → 1 ≤ f → f ≤ 10 → r < 0 → mkSalesPrediction e s f r =
        .error "Predicted revenue cannot be negative")
    ∧ (0 ≤ e → 0 ≤ s → 1 ≤ f → f ≤ 10 → 0 ≤ r → mkSalesPrediction e s f r =
        .ok ⟨e, s, f, r⟩) := by
  unfold mkSalesPrediction
  split_ifs with h1 h2 h3 h4 <;> simp_all [exOk]

/-- Witness for C1 at concrete inputs: a fully valid construction and a
doubly invalid one reporting the first violated invariant. -/
theorem mkSalesPrediction_spec_witness :
    mkSalesPrediction 36 50 7 100 = .ok ⟨36, 50, 7, 100⟩
    ∧ mkSalesPrediction (-1) (-2) 0 (-3) =
        .error "Experience months cannot be negative" := by
  exact ⟨(mkSalesPrediction_spec 36 50 7 100).2.2.2.2.2
      (by norm_num) (by norm_num) (by norm_num) (by norm_num) (by norm_num),
    (mkSalesPrediction_spec (-1) (-2) 0 (-3)).2.1 (by norm_num)⟩

/-- C3: `fit_transform` with degree 2 on a matrix whose rows have 3
columns succeeds and returns one row per input row, each of exactly 9
values — the 3 linear terms, then the degree-2 monomials `x0², x0·x1,
x0·x2, x1², x1·x2, x2²` in the canonical enumeration order the
transformer defines — and in general a fitted transformer on `n`
features with degree `d` produces rows of length `C(n + d, d) - 1`. -/
theorem fitTransform_deg2_spec (X : List (List ℚ)) (h : ∀ row ∈ X, row.length = 3) :
    ((mkDataPreprocessor 2).fitTransform X =
      .ok (X.map (fun row =>
        [row.getD 0 0, row.getD 1 0, row.getD 2 0,
         row.getD 0 0 * row.getD 0 0, row.getD 0 0 * row.getD 1 0,
         row.getD 0 0 * row.getD 2 0, row.getD 1 0 * row.getD 1 0,
         row.getD 1 0 * row.getD 2 0, row.getD 2 0 * row.getD 2 0])))
    ∧ (∀ Y, (mkDataPreprocessor 2).fitTransform X = .ok Y →
        Y.length = X.length ∧ ∀ r ∈ Y, r.length = 9)
    ∧ (∀ (n d : Nat) (row : List ℚ),
        (PolyFeatures.transformRow ⟨d, n⟩ row).length = Nat.choose (n + d) d - 1) := by
  have hok : (mkDataPreprocessor 2).fitTransform X = .ok (X.map (PolyFeatures.transformRow ⟨2, 3⟩)) := by
    unfold DataPreprocessor.fitTransform DataPreprocessor.fit DataPreprocessor.transform
      mkDataPreprocessor PolyFeatures.transform
    cases X with
    | nil => simp
    | cons r rs =>
      have hr : r.length = 3 := h r (by simp)
      have hall : ((r :: rs).all (fun row => row.length == ((r :: rs).headD []).length)) = true := by
        simp only [List.headD_cons, hr, List.all_eq_true]
        intro row hrow
        simp [h row hrow, hr]
      simp only [List.headD_cons, hr] at hall ⊢
      simp [hall]
  refine ⟨?_, ?_, ?_⟩
  · rw [hok]
    congr 1
    exact List.map_congr_left (fun row _ => transformRow_deg2 row)
  · intro Y hY
    rw [hok] at hY
    cases hY
    constructor
    · simp
    · intro r hr
      simp only [List.mem_map] at hr
      obtain ⟨row, _, rfl⟩ := hr
      rw [transformRow_deg2]
      rfl
  · intro n d row
    simp [PolyFeatures.transformRow, polyCombos_length]

/-- Witness for C3: three concrete input rows of 3 features produce a
3 × 9 result with the expected monomial values. -/
theorem fitTransform_deg2_spec_witness :
    (mkDataPreprocessor 2).fitTransform [[1, 2, 3], [0, 1, 0], [2, 2, 2]] =
      .ok [[1, 2, 3, 1, 2, 3, 4, 6, 9],
           [0, 1, 0, 0, 0, 0, 1, 0, 0],
           [2, 2, 2, 4, 4, 4, 4, 4, 4]] := by
  have := (fitTransform_deg2_spec [[1, 2, 3], [0, 1, 0], [2, 2, 2]]
    (by intro row hrow; simp at hrow; rcases hrow with h | h | h <;> simp [h])).1
  rw [this]
  norm_num

/-- C5: `transform` on a freshly constructed (never fitted, never
loaded) preprocessor fails with the not-fitted error for every input,
and after `fit` on the same (rectangular) input, `transform` succeeds. -/
theorem transform_requires_fit (d : Nat) (X : List (List ℚ)) :
    (mkDataPreprocessor d).transform X =
      .error "Transformer not fitted. Call fit() first."
    ∧ ((∀ row ∈ X, row.length = (X.headD []).length) →
        exOk (((mkDataPreprocessor d).fit X).transform X) = true) := by
  constructor
  · rfl
  · intro hrect
    have hall : (X.all (fun row => row.length == (X.headD []).length)) = true := by
      simp only [List.all_eq_true]
      intro row hrow
      simp [hrect row hrow]
    show exOk (PolyFeatures.transform ⟨d, (X.headD []).length⟩ X) = true
    unfold PolyFeatures.transform
    rw [if_pos hall]
    rfl

/-- Witness for C5 at a concrete degree and input matrix. -/
theorem transform_requires_fit_witness :
    (mkDataPreprocessor 2).transform [[1, 2, 3]] =
      .error "Transformer not fitted. Call fit() first."
    ∧ exOk (((mkDataPreprocessor 2).fit [[1, 2, 3]]).transform [[1, 2, 3]]) = true := by
  refine ⟨(transform_requires_fit 2 [[1, 2, 3]]).1,
    (transform_requires_fit 2 [[1, 2, 3]]).2 ?_⟩
  intro row hrow
  simp at hrow
  simp [hrow]

/-- C9: `interpret_r2` returns the band determined by the thresholds:
negative values give the worse-than-baseline band, `[0, 0.3)` poor,
`[0.3, 0.7)` moderate, `[0.7, 0.9)` good, and `≥ 0.9` excellent. -/
theorem interpret_r2_bands (r2 : ℚ) :
    (r2 < 0 → interpret_r2 r2 =
      "Very poor - model is worse than predicting the mean")
    ∧ (0 ≤ r2 → r2 < 0.3 → interpret_r2 r2 =
      "Poor - model has weak predictive power")
    ∧ (0.3 ≤ r2 → r2 < 0.7 → interpret_r2 r2 =
      "Moderate - model captures some patterns")
    ∧ (0.7 ≤ r2 → r2 < 0.9 → interpret_r2 r2 =
      "Good - model captures most patterns")
    ∧ (0.9 ≤ r2 → interpret_r2 r2 =
      "Excellent - model has strong predictive power") := by
  unfold interpret_r2
  split_ifs <;> refine ⟨?_, ?_, ?_, ?_, ?_⟩ <;> intros <;>
    first | rfl | linarith

/-- Witness for C9: `interpret_r2 0.95` lands in the excellent band and
`interpret_r2 (-0.1)` in the worse-than-baseline band. -/
theorem interpret_r2_bands_witness :
    interpret_r2 0.95 = "Excellent - model has strong predictive power"
    ∧ interpret_r2 (-0.1) =
      "Very poor - model is worse than predicting the mean" :=
  ⟨(interpret_r2_bands 0.95).2.2.2.2 (by norm_num),
   (interpret_r2_bands (-0.1)).1 (by norm_num)⟩

/-- C10: `validate_input` fails with an error naming the missing
features when any of the three expected keys (the first being
`years_of_experience`, not `experience_months`) is absent; when all
three are present it returns the single row of their values in fixed
order, regardless of any extra keys in the dictionary. -/
theorem validate_input_spec (data : List (String × ℚ)) :
    (missingFeatures data ≠ [] → validate_input data =
      .error ("Missing required features: " ++
        String.intercalate ", " (missingFeatures data)))
    ∧ (missingFeatures data = [] ↔
        ∀ k ∈ EXPECTED_FEATURES, (data.lookup k).isSome = true)
    ∧ (∀ v1 v2 v3 : ℚ, data.lookup "years_of_experience" = some v1 →
        data.lookup "number_of_sales" = some v2 →
        data.lookup "seasonal_factor" = some v3 →
        validate_input data = .ok [[v1, v2, v3]])
    ∧ (∀ (k : String) (v : ℚ), k ∉ EXPECTED_FEATURES →
        validate_input ((k, v) :: data) = validate_input data) := by
  refine ⟨?_, ?_, ?_, ?_⟩
  · intro h
    simp [validate_input, h]
  · constructor
    · intro h k hk
      have : k ∉ missingFeatures data := by simp [h]
      simp only [missingFeatures, List.mem_filter, not_and] at this
      have := this hk
      simp only [Option.isNone_iff_eq_none] at this
      cases hcase : data.lookup k with
      | none => exact absurd (by simp [hcase]) this
      | some v => rfl
    · intro h
      simp only [missingFeatures, List.filter_eq_nil_iff]
      intro k hk
      have := h k hk
      simp only [Option.isSome_iff_exists] at this
      obtain ⟨v, hv⟩ := this
      simp [hv]
  · intro v1 v2 v3 h1 h2 h3
    have hmiss : missingFeatures data = [] := by
      simp [missingFeatures, EXPECTED_FEATURES, List.filter, h1, h2, h3]
    simp [validate_input, hmiss, h1, h2, h3]
  · intro k v hk
    have hlook : ∀ k' ∈ EXPECTED_FEATURES,
        (((k, v) :: data).lookup k') = data.lookup k' := by
      intro k' hk'
      have hne : k' ≠ k := fun h => hk (h ▸ hk')
      have hbeq : (k' == k) = false := by simp [hne]
      simp [List.lookup, hbeq]
    have hmiss : missingFeatures ((k, v) :: data) = missingFeatures data := by
      unfold missingFeatures
      exact List.filter_congr (fun k' hk' => by rw [hlook k' hk'])
    unfold validate_input
    rw [hmiss,
      hlook "years_of_experience" (by simp [EXPECTED_FEATURES]),
      hlook "number_of_sales" (by simp [EXPECTED_FEATURES]),
      hlook "seasonal_factor" (by simp [EXPECTED_FEATURES])]

/-- Witness for C10: a dictionary missing two keys is rejected naming
them; a complete dictionary with an extra key is accepted with the
three expected values in order. -/
theorem validate_input_spec_witness :
    validate_input [("years_of_experience", 36)] =
      .error "Missing required features: number_of_sales, seasonal_factor"
    ∧ validate_input [("extra", 99), ("years_of_experience", 36),
        ("number_of_sales", 50), ("seasonal_factor", 7)] =
      .ok [[36, 50, 7]] := by
  constructor
  · have h := (validate_input_spec [("years_of_experience", 36)]).1
    rw [h (by decide)]
    rfl
  · exact (validate_input_spec [("extra", 99), ("years_of_experience", 36),
      ("number_of_sales", 50), ("seasonal_factor", 7)]).2.2.1 36 50 7
      (by decide) (by decide) (by decide)

/-- C6: `load_model` fails with the not-found error whenever the
resolved file name is absent from the store, and `load_all` on a fresh
(empty) store fails with the not-found error for the transformer, the
first artifact it attempts. -/
theorem load_model_missing {α : Type} (store : List (String × α)) (name : String) :
    (store.lookup (normalizeName name) = none →
      load_model store name = .error ("Model not found: " ++ normalizeName name))
    ∧ load_all ([] : List (String × α)) =
        .error "Model not found: polynomial_transformer.joblib" := by
  constructor
  · intro h
    simp [load_model, h]
  · rfl

/-- Witness for C6: loading `revenue_model` from a store holding only
an unrelated file fails, and `load_all` on the empty store fails. -/
theorem load_model_missing_witness :
    load_model [("other.joblib", (5 : ℕ))] "revenue_model" =
      .error "Model not found: revenue_model.joblib"
    ∧ load_all ([] : List (String × ℕ)) =
        .error "Model not found: polynomial_transformer.joblib" :=
  ⟨(load_model_missing [("other.joblib", (5 : ℕ))] "revenue_model").1 (by decide),
   (load_model_missing ([] : List (String × ℕ)) "x").2⟩

/-- C7: `load_model` after `save_model` under the same name returns the
saved artifact, the returned path is the normalized name, and a name
without the `.joblib` suffix and the same name with it resolve to the
same stored artifact. -/
theorem save_load_roundtrip {α : Type} (store : List (String × α)) (x : α)
    (name : String) :
    load_model (save_model store x name).1 name = .ok x
    ∧ (save_model store x name).2 = normalizeName name
    ∧ (strEndsWith name ".joblib" = false →
        load_model (save_model store x name).1 (name ++ ".joblib") = .ok x
        ∧ load_model (save_model store x (name ++ ".joblib")).1 name = .ok x) := by
  have hkey : ∀ (st : List (String × α)) (k : String),
      List.lookup k ((k, x) :: st) = some x := by
    intro st k
    simp [List.lookup]
  have hsuffix : strEndsWith name ".joblib" = false →
      normalizeName (name ++ ".joblib") = normalizeName name := by
    intro h
    unfold normalizeName
    simp [h, strEndsWith_append]
  refine ⟨?_, rfl, ?_⟩
  · simp [load_model, save_model, hkey]
  · intro h
    constructor
    · simp [load_model, save_model, hsuffix h, hkey]
    · simp [load_model, save_model, hsuffix h, hkey]

/-- Witness for C7: saving a concrete artifact as `revenue_model` and
loading it back, with and without the suffix. -/
theorem save_load_roundtrip_witness :
    load_model (save_model ([] : List (String × ℕ)) 7 "revenue_model").1
      "revenue_model" = .ok 7
    ∧ load_model (save_model ([] : List (String × ℕ)) 7 "revenue_model").1
      "revenue_model.joblib" = .ok 7 := by
  have h := save_load_roundtrip ([] : List (String × ℕ)) 7 "revenue_model"
  exact ⟨h.1, (h.2.2 (by decide)).1⟩

/-- C8 counterexample: an explicit directory argument is NOT always
used — the empty string is falsy in Python, so `ModelLoader("")` falls
through to probing and here resolves to `saved_models`, not to the
given `""`. -/
theorem resolveModelsDir_empty_arg_cex :
    resolveModelsDir (some "") (fun _ => false) "/src/saved_models" =
      "saved_models"
    ∧ ("saved_models" : String) ≠ "" := by
  exact ⟨rfl, by decide⟩

/-- C8 (amended): a non-empty explicit directory argument is used
unconditionally; with the argument absent (or empty, which Python
treats as falsy), the store probes, in order, the relative
`saved_models` directory, the absolute deployment path
`/app/saved_models`, and the module-relative directory, returning the
first that exists, and defaults to `saved_models` when none does. -/
theorem resolveModelsDir_spec (arg : Option String) (ex : String → Bool)
    (fileRel : String) :
    (∀ d, arg = some d → d ≠ "" → resolveModelsDir arg ex fileRel = d)
    ∧ ((arg = none ∨ arg = some "") →
        resolveModelsDir arg ex fileRel =
          if ex "saved_models" then "saved_models"
          else if ex "/app/saved_models" then "/app/saved_models"
          else if ex fileRel then fileRel
          else "saved_models") := by
  constructor
  · intro d hd hne
    subst hd
    simp [resolveModelsDir, hne]
  · intro hfalsy
    have hfind : find_models_dir ex fileRel =
        if ex "saved_models" then "saved_models"
        else if ex "/app/saved_models" then "/app/saved_models"
        else if ex fileRel then fileRel
        else "saved_models" := by
      unfold find_models_dir modelsSearchPaths
      cases h1 : ex "saved_models" <;> cases h2 : ex "/app/saved_models" <;>
        cases h3 : ex fileRel <;> simp [List.find?, h1, h2, h3]
    rcases hfalsy with h | h <;> subst h <;> simpa [resolveModelsDir] using hfind

/-- Witness for C8 (amended): a non-empty explicit directory wins even
when every probe would succeed; with no argument and only the Docker
path existing, probing selects `/app/saved_models`. -/
theorem resolveModelsDir_spec_witness :
    resolveModelsDir (some "custom_dir") (fun _ => true) "/src/saved_models" =
      "custom_dir"
    ∧ resolveModelsDir none (fun p => p == "/app/saved_models")
        "/src/saved_models" = "/app/saved_models" := by
  constructor
  · exact (resolveModelsDir_spec (some "custom_dir") (fun _ => true)
      "/src/saved_models").1 "custom_dir" rfl (by decide)
  · rw [(resolveModelsDir_spec none (fun p => p == "/app/saved_models")
      "/src/saved_models").2 (Or.inl rfl)]
    decide

/-- C2: for every valid input triple and a fitted degree-2 transformer
on 3 features whose regressor predicts a non-negative value there, the
use case returns an output whose `predicted_revenue` is exactly the
regressor applied to the polynomial transform of the ordered single-row
feature vector (a deterministic value ≥ 0), echoing the three input
fields unchanged. -/
theorem execute_spec (t : PolyFeatures) (g : List ℚ → ℚ) (e s f : ℤ)
    (ht : t.nIn = 3) (he : 0 ≤ e) (hs : 0 ≤ s) (hf1 : 1 ≤ f) (hf2 : f ≤ 10)
    (hr : 0 ≤ g (t.transformRow [(e : ℚ), (s : ℚ), (f : ℚ)])) :
    repoPredict t g e s f = .ok (g (t.transformRow [(e : ℚ), (s : ℚ), (f : ℚ)]))
    ∧ execute t g ⟨e, s, f⟩ =
        .ok ⟨g (t.transformRow [(e : ℚ), (s : ℚ), (f : ℚ)]), e, s, f,
          "Polynomial Regression (degree=2)"⟩
    ∧ 0 ≤ g (t.transformRow [(e : ℚ), (s : ℚ), (f : ℚ)]) := by
  have hpred : repoPredict t g e s f =
      .ok (g (t.transformRow [(e : ℚ), (s : ℚ), (f : ℚ)])) := by
    unfold repoPredict PolyFeatures.transform
    rw [if_pos]
    · rfl
    · simp [ht]
  have hmk : mkSalesPrediction e s f
      (g (t.transformRow [(e : ℚ), (s : ℚ), (f : ℚ)])) =
      .ok ⟨e, s, f, g (t.transformRow [(e : ℚ), (s : ℚ), (f : ℚ)])⟩ :=
    mkSalesPrediction_ok e s f _ he hs hf1 hf2 hr
  refine ⟨hpred, ?_, hr⟩
  simp [execute, hpred, hmk]

/-- Witness for C2 at input `(36, 50, 7)` with the fitted degree-2
transformer on 3 features and a concrete regressor (first transformed
coordinate): the output carries that regressor value and echoes the
inputs. -/
theorem execute_spec_witness :
    execute ⟨2, 3⟩ (fun r => r.headD 0) ⟨36, 50, 7⟩ =
      .ok ⟨36, 36, 50, 7, "Polynomial Regression (degree=2)"⟩ := by
  have h := (execute_spec ⟨2, 3⟩ (fun r => r.headD 0) 36 50 7 rfl
    (by norm_num) (by norm_num) (by norm_num) (by norm_num)
    (by simp [transformRow_deg2])).2.1
  simpa [transformRow_deg2] using h

/-- C4: an input with any out-of-range field is rejected by the
interface validation before the regressor is reached: the pipeline
fails, and its result does not depend on the transformer or the
regressor at all. -/
theorem pipeline_rejects_invalid (e s f : ℤ)
    (h : e < 0 ∨ s < 0 ∨ f < 1 ∨ 10 < f) :
    (∀ t g, exOk (pipeline t g e s f) = false)
    ∧ (∀ t g t' g', pipeline t g e s f = pipeline t' g' e s f) := by
  have hne : ((if e < 0 then ["experience_months"] else [])
      ++ (if s < 0 then ["number_of_sales"] else [])
      ++ (if ¬ (1 ≤ f ∧ f ≤ 10) then ["seasonal_factor"] else [])) ≠ [] := by
    split_ifs <;> simp_all
    omega
  have hmk : mkPredictionInput e s f = .error ("validation error: " ++
      String.intercalate ", "
        ((if e < 0 then ["experience_months"] else [])
          ++ (if s < 0 then ["number_of_sales"] else [])
          ++ (if ¬ (1 ≤ f ∧ f ≤ 10) then ["seasonal_factor"] else []))) := by
    unfold mkPredictionInput
    rw [if_neg hne]
  constructor
  · intro t g
    simp [pipeline, hmk, exOk]
  · intro t g t' g'
    simp [pipeline, hmk]

/-- Witness for C4 at the two concrete rejected inputs of the spec,
`(-5, 50, 7)` and `(36, 50, 15)`: the pipeline fails and its result is
unchanged under swapping both the transformer and the regressor. -/
theorem pipeline_rejects_invalid_witness :
    exOk (pipeline ⟨2, 3⟩ (fun _ => 0) (-5) 50 7) = false
    ∧ pipeline ⟨2, 3⟩ (fun _ => 0) (-5) 50 7 =
        pipeline ⟨0, 0⟩ (fun _ => 99) (-5) 50 7
    ∧ exOk (pipeline ⟨2, 3⟩ (fun _ => 0) 36 50 15) = false
    ∧ pipeline ⟨2, 3⟩ (fun _ => 0) 36 50 15 =
        pipeline ⟨0, 0⟩ (fun _ => 99) 36 50 15 := by
  have h1 := pipeline_rejects_invalid (-5) 50 7 (by norm_num)
  have h2 := pipeline_rejects_invalid 36 50 15 (by norm_num)
  exact ⟨h1.1 ⟨2, 3⟩ (fun _ => 0),
    h1.2 ⟨2, 3⟩ (fun _ => 0) ⟨0, 0⟩ (fun _ => 99),
    h2.1 ⟨2, 3⟩ (fun _ => 0),
    h2.2 ⟨2, 3⟩ (fun _ => 0) ⟨0, 0⟩ (fun _ => 99)⟩

end SalesRevenue
